import Mathlib

set_option maxRecDepth 40000

/-!
# Verification of the `start-word2pdf` lifecycle hook module

Shallow embedding of `src/hook/index.js` (the only executable code of the
repository): two asynchronous functions `preInit` and `postInit`, each of
which executes a single `console.log` of a fixed template literal and
returns, plus the `module.exports` object exposing exactly those two
functions.

We model JavaScript values with a small inductive type `JsValue` (enough to
express the opaque configuration objects the host tool passes in), an
observable effect trace (`Effect`, whose only constructor is a console
write, since the code performs no other action), and an `Except` error
channel so that the impossibility of a thrown exception is statable.  Each
hook body is straight-line code consisting of one `console.log` of a
literal, which cannot throw, so the embedding always returns `.ok`.
-/

namespace Word2pdfHook

/-- A JavaScript value, as far as this module can observe one.  The
configuration argument handed to the hooks by the scaffolding tool is an
arbitrary such value; the hooks never inspect it. -/
inductive JsValue where
  | undefined : JsValue
  | null : JsValue
  | bool (b : Bool) : JsValue
  | num (n : Int) : JsValue
  | str (s : String) : JsValue
  | obj (fields : List (String × JsValue)) : JsValue

/-- An observable side effect of running a hook.  The bodies of `preInit`
and `postInit` consist solely of `console.log` calls, so a console write is
the only effect constructor needed to embed them. -/
inductive Effect where
  | consoleLog (text : String) : Effect
deriving DecidableEq, Repr

/-- A thrown JavaScript exception (carrying the thrown value).  No
statement in `hook/index.js` can throw, so this type is never produced; it
exists so that "never raises an error" is a statable property. -/
inductive JsError where
  | thrown (v : JsValue) : JsError

/-- The outcome of one successful hook invocation: the ordered trace of
side effects it performed, and the value its promise resolves to. -/
structure HookResult where
  effects : List Effect
  ret : JsValue

/-- The cooked value of the template literal logged by `preInit`
(`hook/index.js` lines 1-8): a leading `\n` escape followed by six
physical lines of ASCII art, with the `\\` escapes of the source resolved
to single backslashes. -/
def preInitBanner : String :=
  "\n                            .___________            .___ _____ \n    __  _  _____________  __| _/\\_____  \\______   __| _// ____\\\n    \\ \\/ \\/ /  _ \\_  __ \\/ __ |  /  ____/\\____ \\ / __ |\\   __\\ \n     \\     (  <_> )  | \\/ /_/ | /       \\|  |_> > /_/ | |  |   \n      \\/\\_/ \\____/|__|  \\____ | \\_______ \\   __/\\____ | |__|   \n                         \\/         \\/__|        \\/        "

/-- The cooked value of the template literal logged by `postInit`
(`hook/index.js` lines 10-23). -/
def postInitMessage : String :=
  "\n    Welcome to the start-bottle application\n     This application requires to open these services: \n         FC : https://fc.console.aliyun.com/\n         ACR: https://cr.console.aliyun.com/\n         OSS: https://oss.console.aliyun.com/\n     \n     * 额外说明：\n        1. 完成项目初始化之后，需要在s.yaml中进行相关内容的配置：\n           - 在environmentVariables参数下，配置对象存储相关的信息\n           - 在customContainerConfig参数下，配置容器镜像相关信息\n     * 完成上述操作之后，可使用 s deploy 进行项目部署\n     * 可以通过invoke命令进行相关的触发：s invoke -e \x27\x7b\"oss_file\":\"word2pdf/example.docx\"\x7d\x27\n"

/-- Embedding of `async function preInit(inputObj)`: its body is the single
statement `console.log(<banner literal>)`, which emits one console write
and cannot throw; the function returns no value, so its promise resolves
to `undefined`. -/
def preInit (inputObj : JsValue) : Except JsError HookResult :=
  .ok { effects := [Effect.consoleLog preInitBanner], ret := JsValue.undefined }

/-- Embedding of `async function postInit(inputObj)`: its body is the
single statement `console.log(<welcome literal>)`; as with `preInit` the
promise resolves to `undefined`. -/
def postInit (inputObj : JsValue) : Except JsError HookResult :=
  .ok { effects := [Effect.consoleLog postInitMessage], ret := JsValue.undefined }

/-- Embedding of the `module.exports = { postInit, preInit }` object at the
end of `hook/index.js`: the exported property names, in source order, with
the functions they are bound to. -/
def moduleExports : List (String × (JsValue → Except JsError HookResult)) :=
  [("postInit", postInit), ("preInit", preInit)]

/-- The text one effect puts on standard output: `console.log` writes its
argument followed by a newline. -/
def effectOutput : Effect → String
  | Effect.consoleLog t => t ++ "\n"

/-- The standard-output text produced by one hook invocation: the
concatenation of the text of its effects, in order. -/
def hookOutput (r : HookResult) : String :=
  String.join (r.effects.map effectOutput)

/-- `hasInfix pat l` decides whether `pat` occurs as a contiguous sublist
of `l`. -/
def hasInfix (pat : List Char) : List Char → Bool
  | [] => pat.isEmpty
  | a :: as => pat.isPrefixOf (a :: as) || hasInfix pat as

/-- `strContains s pat` decides whether `pat` occurs as a substring of
`s`. -/
def strContains (s pat : String) : Bool :=
  hasInfix pat.data s.data

/-- The module declares no mutable module-level bindings (no `let`, `var`
or assignment appears outside the two function bodies), so the state a
hook invocation could read or write is trivial. -/
def ModuleState : Type := Unit

/-- A hook invocation as a state transformer over the module state: it
leaves the (trivial) module state unchanged and produces the result of the
pure embedding. -/
def statefulCall (hook : JsValue → Except JsError HookResult)
    (σ : ModuleState) (v : JsValue) : ModuleState × Except JsError HookResult :=
  (σ, hook v)

/-- `runCalls hook σ v n` performs `n` successive invocations of the hook
on the same argument, threading the module state through, and collects the
per-call results in order. -/
def runCalls (hook : ModuleState → JsValue → ModuleState × Except JsError HookResult)
    (σ : ModuleState) (v : JsValue) : Nat → ModuleState × List (Except JsError HookResult)
  | 0 => (σ, [])
  | Nat.succ n =>
    let step := hook σ v
    let rest := runCalls hook step.1 v n
    (rest.1, step.2 :: rest.2)

/-- Helper: iterating a hook through `runCalls` threads the trivial module
state unchanged and yields the same per-call result every time, because
each hook is a pure function of its argument over a stateless module. -/
theorem runCalls_statefulCall (hook : JsValue → Except JsError HookResult)
    (σ : ModuleState) (v : JsValue) (n : Nat) :
    runCalls (statefulCall hook) σ v n = (σ, List.replicate n (hook v)) := by
  induction n with
  | zero => rfl
  | succ n ih => simp [runCalls, statefulCall, ih, List.replicate]

/-- C1: for every input value (the configuration argument is ignored),
`postInit` raises no error and its standard-output text contains the
substrings "FC", "ACR", "OSS" and the exact sample invocation command
printed on the last line of the welcome message. -/
theorem postInit_lists_services_and_sample_command (v : JsValue) :
    ∃ r, postInit v = Except.ok r ∧
      strContains (hookOutput r) "FC" = true ∧
      strContains (hookOutput r) "ACR" = true ∧
      strContains (hookOutput r) "OSS" = true ∧
      strContains (hookOutput r)
        "s invoke -e \x27\x7b\"oss_file\":\"word2pdf/example.docx\"\x7d\x27" = true :=
  ⟨_, rfl, by decide, by decide, by decide, by decide⟩

/-- C2: for every input value, `preInit` performs exactly the single
console write of the fixed, non-empty banner literal and nothing else; any
two calls produce the identical result. -/
theorem preInit_writes_fixed_banner (v w : JsValue) :
    preInit v =
      Except.ok { effects := [Effect.consoleLog preInitBanner], ret := JsValue.undefined } ∧
    preInit v = preInit w ∧
    preInitBanner ≠ "" :=
  ⟨rfl, rfl, by decide⟩

/-- C3: for every input value, including an empty or malformed
configuration object, neither `preInit` nor `postInit` raises an error:
both always return successfully and the error branch is unreachable. -/
theorem hooks_never_raise (v : JsValue) :
    (∃ r, preInit v = Except.ok r) ∧ (∃ r, postInit v = Except.ok r) ∧
    (∀ e, preInit v ≠ Except.error e) ∧ (∀ e, postInit v ≠ Except.error e) :=
  ⟨⟨_, rfl⟩, ⟨_, rfl⟩, fun _ h => by simp [preInit] at h, fun _ h => by simp [postInit] at h⟩

/-- C4: both hooks are idempotent in their observable output: iterating
either hook any number of times on the same input threads the module state
through unchanged and yields the result of the first call at every
position, so no state accumulates between calls. -/
theorem hooks_idempotent (v : JsValue) (n : Nat) :
    (runCalls (statefulCall preInit) () v n).2 = List.replicate n (preInit v) ∧
    (runCalls (statefulCall postInit) () v n).2 = List.replicate n (postInit v) ∧
    (runCalls (statefulCall preInit) () v n).1 = () ∧
    (runCalls (statefulCall postInit) () v n).1 = () := by
  rw [runCalls_statefulCall, runCalls_statefulCall]
  exact ⟨rfl, rfl, rfl, rfl⟩

/-- C5: the observable behaviour of each hook is independent of the
configuration argument: any two input values give identical results,
because neither function reads any field of its input. -/
theorem hooks_ignore_input (c1 c2 : JsValue) :
    preInit c1 = preInit c2 ∧ postInit c1 = postInit c2 :=
  ⟨rfl, rfl⟩

/-- C6 counterexample: at the concrete input `\x7b\x7d`, the standard
output of `preInit` does not contain the application name as a text
substring, in any of its plausible spellings: the banner identifies the
application only as ASCII art. -/
theorem preInit_output_lacks_textual_app_name :
    ∃ r, preInit (JsValue.obj []) = Except.ok r ∧
      strContains (hookOutput r) "word2pdf" = false ∧
      strContains (hookOutput r) "start-word2pdf" = false ∧
      strContains (hookOutput r) "Word2Pdf" = false ∧
      strContains (hookOutput r) "WORD2PDF" = false :=
  ⟨_, rfl, by decide, by decide, by decide, by decide⟩

/-- C6 amended: for every input, the standard output of `preInit` is
exactly the fixed ASCII-art banner followed by a newline; the banner is
non-empty but contains no alphabetic character at all, so it renders the
application name only pictorially and no textual form of the name occurs
as a substring. -/
theorem preInit_banner_identifies_app_pictorially (v : JsValue) :
    ∃ r, preInit v = Except.ok r ∧
      hookOutput r = preInitBanner ++ "\n" ∧
      preInitBanner ≠ "" ∧
      preInitBanner.data.all (fun c => !c.isAlpha) = true :=
  ⟨_, rfl, by simp [hookOutput, effectOutput, String.join], by decide, by decide⟩

/-- C7: for every input, each hook resolves to the undefined value: no
data derived from the input or from the printed text is returned. -/
theorem hooks_resolve_to_undefined (v : JsValue) :
    (∃ r, preInit v = Except.ok r ∧ r.ret = JsValue.undefined) ∧
    (∃ r, postInit v = Except.ok r ∧ r.ret = JsValue.undefined) :=
  ⟨⟨_, rfl, rfl⟩, ⟨_, rfl, rfl⟩⟩

/-- C8: the module exports exactly the two named entry points `postInit`
and `preInit` (in that source order) and nothing else, and each exported
name is bound to the corresponding hook function. -/
theorem module_exposes_exactly_two_hooks :
    moduleExports.map Prod.fst = ["postInit", "preInit"] ∧
    moduleExports.length = 2 ∧
    moduleExports.lookup "preInit" = some preInit ∧
    moduleExports.lookup "postInit" = some postInit :=
  ⟨rfl, rfl, rfl, rfl⟩

/-- C9: each invocation of either hook performs exactly one side effect,
that effect is a console write, and the module state is left unchanged: no
branching, retries or other observable action occurs. -/
theorem hooks_single_console_write (v : JsValue) (σ : ModuleState) :
    (∃ r, preInit v = Except.ok r ∧ r.effects.length = 1 ∧
      ∀ e ∈ r.effects, ∃ s, e = Effect.consoleLog s) ∧
    (∃ r, postInit v = Except.ok r ∧ r.effects.length = 1 ∧
      ∀ e ∈ r.effects, ∃ s, e = Effect.consoleLog s) ∧
    (statefulCall preInit σ v).1 = σ ∧
    (statefulCall postInit σ v).1 = σ :=
  ⟨⟨_, rfl, rfl, by intro e he; simp at he; exact ⟨_, he⟩⟩,
   ⟨_, rfl, rfl, by intro e he; simp at he; exact ⟨_, he⟩⟩,
   rfl, rfl⟩

/-- C10: for every input, the standard output of `postInit` contains the
literal welcome line naming the application "start-bottle" rather than the
repository name word2pdf. -/
theorem postInit_welcomes_start_bottle (v : JsValue) :
    ∃ r, postInit v = Except.ok r ∧
      strContains (hookOutput r) "Welcome to the start-bottle application" = true :=
  ⟨_, rfl, by decide⟩

end Word2pdfHook
